import Mathlib

/-!
Verification of the Duckietown battery firmware-upgrade helper
(`packages/upgrade_helper`): a shallow embedding of `helper.py`,
`constants.py` and `main.py`, followed by theorems settling the
specification claims about mode detection, the bounded info-read
session, version resolution, catalog parsing and the upgrade workflow.

External collaborators (the serial enumeration, the `battery_drivers`
driver, the HTTP transport, the `bossac` flashing tool, the filesystem
and the process environment) are modelled as explicit inputs; everything
else is translated directly from the Python source.
-/

namespace UpgradeHelper

/-- Exit codes from `constants.py` (`class ExitCode(IntEnum)`). -/
inductive ExitCode
  | NOTHING_TO_DO
  | SUCCESS
  | HARDWARE_NOT_FOUND
  | HARDWARE_BUSY
  | HARDWARE_WRONG_MODE
  | FIRMWARE_UP_TO_DATE
  | FIRMWARE_NEEDS_UPDATE
  | GENERIC_ERROR
deriving DecidableEq, Repr

/-- Numeric values of the exit codes, as declared in `constants.py`. -/
def ExitCode.toNat : ExitCode → Nat
  | .NOTHING_TO_DO => 255
  | .SUCCESS => 1
  | .HARDWARE_NOT_FOUND => 2
  | .HARDWARE_BUSY => 3
  | .HARDWARE_WRONG_MODE => 4
  | .FIRMWARE_UP_TO_DATE => 5
  | .FIRMWARE_NEEDS_UPDATE => 6
  | .GENERIC_ERROR => 9

/-- `constants.py`: `PCB_VERSION_ID_EXIT_CODE_NONE = 0`, the distinct
return channel of `--find-pcbid` meaning "failed to obtain a valid PCB
version". -/
def PCB_VERSION_ID_EXIT_CODE_NONE : Nat := 0

/-- `constants.py`: `class BatteryMode(Enum)` with values READY and BOOT. -/
inductive BatteryMode
  | READY
  | BOOT
deriving DecidableEq, Repr

/-- `constants.py`: `LOCAL_FIRMWARE_BIN_PATH`. -/
def LOCAL_FIRMWARE_BIN_PATH : String := "assets/firmware/fw.bin"

/-- Python exceptions that the embedded code can raise and does not
catch.  `valueError` stands for `ValueError` (failed `int(...)`),
`typeError` for `TypeError` (wrong arity / `None` where a value is
required). -/
inductive PyError
  | valueError
  | typeError
deriving DecidableEq, Repr

/-- Exact character-list equality test used by the substring check. -/
def charsEqFrom : List Char → List Char → Bool
  | [], _ => true
  | _ :: _, [] => false
  | a :: as, b :: bs => a == b && charsEqFrom as bs

/-- Substring containment on character lists: models Python's
`needle in haystack` test on strings. -/
def containsSub : List Char → List Char → Bool
  | [], needle => needle.isEmpty
  | h :: t, needle => charsEqFrom needle (h :: t) || containsSub t needle

/-- Python `needle in hay` for strings. -/
def strContains (hay needle : String) : Bool :=
  containsSub hay.data needle.data

/-- Value of a decimal digit string (most significant digit first). -/
def digitsToNat (l : List Char) : Nat :=
  l.foldl (fun a c => 10 * a + (c.toNat - 48)) 0

/-- Python `int(s)` on the unsigned decimal strings arising in this
program: succeeds exactly on a non-empty all-digit string, otherwise
raises `ValueError` (modelled as `none`). -/
def pyIntNat (s : String) : Option Nat :=
  if s.data ≠ [] ∧ s.data.all Char.isDigit = true then some (digitsToNat s.data)
  else none

/-- Python `re.sub("[^0-9]+", "", s)`: keep only the decimal digits. -/
def digitsOf (s : String) : String :=
  ⟨s.data.filter Char.isDigit⟩

/-- The two mode-mismatch remediation messages logged by
`_battery_device_mode_detect`.  `pressOnceForNormal` is the READY-required
branch ("switch mode by pressing the button ONCE"), `pressTwiceForBoot`
the BOOT-required branch ("switch mode by DOUBLE pressing the button"). -/
inductive WrongModeMsg
  | pressOnceForNormal
  | pressTwiceForBoot
deriving DecidableEq, Repr

/-- `UpgradeHelper._battery_device_mode_detect` (helper.py, lines 81-127).
The device lists are the results of the two `_find_device` enumerations
(external serial enumeration).  Returns either an exit code (`Sum.inl`,
the `isinstance(res, int)` case) or the first device address of the
required mode (`Sum.inr`), together with the mode-mismatch guidance
message logged, if any.  The Python `else` branch (invalid mode) is
unreachable for the two-valued `BatteryMode` enum. -/
def batteryDeviceModeDetect (readyDevs bootDevs : List String)
    (modeRequired : BatteryMode) : Sum ExitCode String × Option WrongModeMsg :=
  if bootDevs.length + readyDevs.length ≤ 0 then
    (.inl .HARDWARE_NOT_FOUND, none)
  else
    match modeRequired with
    | .READY =>
      match readyDevs with
      | [] => (.inl .HARDWARE_WRONG_MODE, some .pressOnceForNormal)
      | d :: _ => (.inr d, none)
    | .BOOT =>
      match bootDevs with
      | [] => (.inl .HARDWARE_WRONG_MODE, some .pressTwiceForBoot)
      | d :: _ => (.inr d, none)

/-- Board information captured by the external `battery_drivers.Battery`
driver: `info['boot']['pcb_version']` and `info['version']`, both
delivered as strings. -/
structure BatteryInfo where
  pcbVersion : String
  version : String
deriving DecidableEq, Repr

/-- How one info-read session with the battery driver ends, abstracting
the external `battery.start(block=True)` call:
  * `gotInfo i` — the driver captured board info before shutdown;
  * `timedOut` — no info ever arrived and the watchdog fired;
  * `externalShutdown` — an external shutdown request
    (`self.is_shutdown()`) ended the session with no info;
  * `raises msg` — `battery.start` raised an
    `OSError`/`SerialException` with message `msg`. -/
inductive SessionEnd
  | gotInfo (i : BatteryInfo)
  | timedOut
  | externalShutdown
  | raises (msg : String)

/-- Observable outcome of `_battery_obtain_info`: the returned exit
code, the resulting `self._battery_info`, and the total number of
invocations of the `battery.shutdown()` session-shutdown primitive
performed across the main flow and the watchdog thread. -/
structure SessionTrace where
  code : ExitCode
  info : Option BatteryInfo
  shutdownCalls : Nat
deriving DecidableEq, Repr

/-- `UpgradeHelper._battery_obtain_info` (helper.py, lines 129-195).
`cached` is the current `self._battery_info`; `readyDevs`/`bootDevs`
are the serial enumeration results; `sess` is how the driver session
ends.  Shutdown-call accounting, from the source: the watchdog thread
(lines 153-160) always ends by calling `battery.shutdown()` once, and
the main flow calls it once more on each session-terminating path
(line 175 on the busy error, line 181 on any other transport error,
line 185 otherwise). -/
def batteryObtainInfo (cached : Option BatteryInfo)
    (readyDevs bootDevs : List String) (sess : SessionEnd) : SessionTrace :=
  match cached with
  | some i => ⟨.SUCCESS, some i, 0⟩
  | none =>
    match (batteryDeviceModeDetect readyDevs bootDevs .READY).1 with
    | .inl c => ⟨c, none, 0⟩
    | .inr _devAddr =>
      match sess with
      | .raises msg =>
        if strContains msg "multiple access" then
          ⟨.HARDWARE_BUSY, none, 1 + 1⟩
        else
          ⟨.GENERIC_ERROR, none, 1 + 1⟩
      | .gotInfo i => ⟨.SUCCESS, some i, 1 + 1⟩
      | .timedOut => ⟨.GENERIC_ERROR, none, 1 + 1⟩
      | .externalShutdown => ⟨.GENERIC_ERROR, none, 1 + 1⟩

/-- The watchdog loop of `_battery_obtain_info` (helper.py, lines
153-159), in time units of one poll step (0.5 s): `timeout` is the
timeout expressed in steps (10 s / 0.5 s = 20), `elapsed` the steps
slept so far.  Models the worst case in which no info ever arrives and
no shutdown is requested, so the loop runs until `elapsed > timeout`;
the result is the total number of steps slept when the loop exits. -/
def watchdogRun (timeout elapsed : Nat) : Nat :=
  if elapsed > timeout then elapsed
  else watchdogRun timeout (elapsed + 1)
termination_by timeout + 1 - elapsed

/-- The watchdog timeout of the source, in seconds (`timeout = 10`). -/
def watchdogTimeoutSeconds : ℚ := 10

/-- The watchdog poll step of the source, in seconds (`step = 0.5`). -/
def watchdogStepSeconds : ℚ := 1 / 2

/-- The watchdog timeout expressed in poll steps. -/
def watchdogTimeoutSteps : Nat := 20

theorem watchdogRun_eq (t e : Nat) (h : e ≤ t + 1) : watchdogRun t e = t + 1 := by
  by_cases hgt : e > t
  · have he : e = t + 1 := by omega
    rw [watchdogRun]
    simp [hgt, he]
  · rw [watchdogRun]
    simp only [hgt, if_false]
    exact watchdogRun_eq t (e + 1) (by omega)
termination_by t + 1 - e

/-- `UpgradeHelper.battery_find_pcb_version` (helper.py, lines 197-212).
On any failure of `_battery_obtain_info` returns the distinct value
`PCB_VERSION_ID_EXIT_CODE_NONE = 0`; otherwise returns
`int(self._battery_info['boot']['pcb_version'])`.  A `SUCCESS` code
with no stored info cannot arise (`_battery_obtain_info` stores the
info exactly on its `SUCCESS` paths); Python would raise a `TypeError`
subscripting `None` there. -/
def batteryFindPcbVersion (cached : Option BatteryInfo)
    (readyDevs bootDevs : List String) (sess : SessionEnd) :
    Except PyError Nat :=
  let t := batteryObtainInfo cached readyDevs bootDevs sess
  if t.code ≠ .SUCCESS then .ok PCB_VERSION_ID_EXIT_CODE_NONE
  else
    match t.info with
    | none => .error .typeError
    | some i =>
      match pyIntNat i.pcbVersion with
      | none => .error .valueError
      | some n => .ok n

/-- Outcome of `requests.get` on the per-PCB "latest" catalog URL
(external HTTP transport): either the request raised
(`transportError`, the `except BaseException` case) or it returned a
response whose `.text` is `body`. -/
inductive RemoteResult
  | transportError
  | body (text : String)

/-- `UpgradeHelper._get_latest_battery_firmware_available_for_pcb`
(helper.py, lines 401-414).  The remote catalog is the oracle
`remote`, keyed by the PCB version that determines the URL.  A
transport error is caught and returns `(None, None)` (modelled `ok
none`).  Otherwise the code unpacks the first three characters of
`latest + "000"` as major/minor/patch and returns
`int(latest), f"v{major}.{minor}.{patch}"`; the `int(latest)` call is
OUTSIDE the `try` block, so a non-numeric body raises an uncaught
`ValueError`. -/
def getLatestBatteryFirmwareForPcb (remote : Nat → RemoteResult)
    (pcbVersion : Nat) : Except PyError (Option (Nat × String)) :=
  match remote pcbVersion with
  | .transportError => .ok none
  | .body latest =>
    let padded := latest.data ++ ['0', '0', '0']
    match pyIntNat latest with
    | none => .error .valueError
    | some n =>
      .ok (some (n, "v" ++ String.singleton (padded.getD 0 '0') ++ "."
        ++ String.singleton (padded.getD 1 '0') ++ "."
        ++ String.singleton (padded.getD 2 '0')))

/-- The inner `fetch_lateset_fw` of `_battery_get_latest_firmware_version`
(helper.py, lines 258-267): a `None` latest version becomes
`GENERIC_ERROR`, otherwise the `(latest_int, latest_str)` pair is
returned. -/
def fetchLatestFw (remote : Nat → RemoteResult) (pcbVersion : Nat) :
    Except PyError (Sum ExitCode (Nat × String)) :=
  match getLatestBatteryFirmwareForPcb remote pcbVersion with
  | .error e => .error e
  | .ok none => .ok (.inl .GENERIC_ERROR)
  | .ok (some (n, s)) => .ok (.inr (n, s))

/-- The override/hint environment variables read by the helper
(`FORCE_BATTERY_FW_VERSION` and `PCB_VERSION` in `constants.py`). -/
structure Env where
  forceFwVersion : Option String
  pcbVersion : Option String

/-- `UpgradeHelper._battery_get_latest_firmware_version` (helper.py,
lines 214-281).  `devicePcb` is the result of the
`self.battery_find_pcb_version()` call of method 2.b.  The second
component records whether the remote catalog was queried
(`requests.get` executed).  Method 1: a forced version string has its
digits extracted by `re.sub("[^0-9]+", "", s)` and parsed; the
`except ValueError` there maps an all-stripped string to
`GENERIC_ERROR`.  Method 2.a: `int(os.environ.get("PCB_VERSION"))` is
not guarded, so a non-numeric value raises.  Method 2.b: a device
query returning `PCB_VERSION_ID_EXIT_CODE_NONE` is `GENERIC_ERROR`. -/
def getLatestFirmwareVersion (env : Env) (remote : Nat → RemoteResult)
    (devicePcb : Except PyError Nat) :
    Except PyError (Sum ExitCode (Nat × String)) × Bool :=
  match env.forceFwVersion with
  | some latestStr =>
    match pyIntNat (digitsOf latestStr) with
    | some n => (.ok (.inr (n, latestStr)), false)
    | none => (.ok (.inl .GENERIC_ERROR), false)
  | none =>
    match env.pcbVersion with
    | some p =>
      match pyIntNat p with
      | none => (.error .valueError, false)
      | some pv => (fetchLatestFw remote pv, true)
    | none =>
      match devicePcb with
      | .error e => (.error e, false)
      | .ok n =>
        if n = PCB_VERSION_ID_EXIT_CODE_NONE then
          (.ok (.inl .GENERIC_ERROR), false)
        else (fetchLatestFw remote n, true)

/-- The external world an invocation runs against: serial enumeration
results, the driver session outcome, the environment variables, the
remote catalog, and the success/failure of the port probe, the local
asset lookup, the firmware download and the `bossac` invocation. -/
structure World where
  readyDevs : List String
  bootDevs : List String
  cachedInfo : Option BatteryInfo
  sess : SessionEnd
  env : Env
  remote : Nat → RemoteResult
  portAvailable : Bool
  dtRepoPath : Option String
  localAssetPresent : Bool
  downloadOk : Bool
  flashOk : Bool

/-- Effects performed by `upgrade_battery` that the claims observe:
whether the remote catalog was queried, whether a firmware download
was attempted, and the exact `bossac` command executed, if any. -/
structure UpgradeTrace where
  remoteQueried : Bool
  downloadAttempted : Bool
  flashCmd : Option (List String)
deriving DecidableEq, Repr

/-- Split a character list at every occurrence of `sep`: models
Python's `str.split(sep)` for a one-character separator. -/
def splitOnChar (sep : Char) : List Char → List (List Char)
  | [] => [[]]
  | c :: t =>
    if c = sep then [] :: splitOnChar sep t
    else
      match splitOnChar sep t with
      | [] => [[c]]
      | h :: r => (c :: h) :: r

/-- Python `dev_addr.split('/')[-1]`: the last path component. -/
def lastSlashComponent (s : String) : String :=
  ((splitOnChar '/' s.data).map fun l => String.mk l).getLastD s

/-- The `bossac` command assembled by `upgrade_battery` (helper.py,
lines 370-379): the device is `dev_addr.split('/')[-1]`, and the mode
is `--info` under `--dry-run`, otherwise erase/write/verify/reset with
the firmware path. -/
def flashCommand (devAddr fwPath : String) (dryrun : Bool) : List String :=
  let device := lastSlashComponent devAddr
  ["bossac", "--port=" ++ device, "--force_usb_port=true"] ++
    (if dryrun then ["--info"]
     else ["--erase", "--write", "--verify", "--reset", fwPath])

/-- The flashing step of `upgrade_battery` (helper.py, lines 370-389):
run the assembled command; a `CalledProcessError` is `GENERIC_ERROR`,
otherwise `SUCCESS`. -/
def flashStep (w : World) (devAddr fwPath : String) (dryrun : Bool)
    (queried attempted : Bool) : Except PyError ExitCode × UpgradeTrace :=
  let cmd := flashCommand devAddr fwPath dryrun
  if w.flashOk then (.ok .SUCCESS, ⟨queried, attempted, some cmd⟩)
  else (.ok .GENERIC_ERROR, ⟨queried, attempted, some cmd⟩)

/-- `UpgradeHelper.upgrade_battery` (helper.py, lines 311-389), the
method proper, with its two parameters `dryrun` and
`use_local_firmware`.  Detect a BOOT-mode device; probe the port for
exclusive access (`HARDWARE_BUSY` on failure); then either check the
local firmware asset (`os.path.join(os.environ.get("DT_REPO_PATH"),
...)` raises `TypeError` when `DT_REPO_PATH` is unset) or require
`PCB_VERSION`, resolve the latest version, parse `PCB_VERSION` again
and download; finally flash. -/
def upgradeBattery (w : World) (dryrun useLocal : Bool) :
    Except PyError ExitCode × UpgradeTrace :=
  match (batteryDeviceModeDetect w.readyDevs w.bootDevs .BOOT).1 with
  | .inl c => (.ok c, ⟨false, false, none⟩)
  | .inr devAddr =>
    if w.portAvailable = false then (.ok .HARDWARE_BUSY, ⟨false, false, none⟩)
    else if useLocal then
      match w.dtRepoPath with
      | none => (.error .typeError, ⟨false, false, none⟩)
      | some repo =>
        let fwPath := repo ++ "/" ++ LOCAL_FIRMWARE_BIN_PATH
        if w.localAssetPresent = false then
          (.ok .GENERIC_ERROR, ⟨false, false, none⟩)
        else flashStep w devAddr fwPath dryrun false false
    else
      match w.env.pcbVersion with
      | none => (.ok .GENERIC_ERROR, ⟨false, false, none⟩)
      | some pv =>
        match getLatestFirmwareVersion w.env w.remote
            (batteryFindPcbVersion w.cachedInfo w.readyDevs w.bootDevs w.sess) with
        | (.error e, q) => (.error e, ⟨q, false, none⟩)
        | (.ok (.inl c), q) => (.ok c, ⟨q, false, none⟩)
        | (.ok (.inr (latestInt, _latestStr)), q) =>
          match pyIntNat pv with
          | none => (.error .valueError, ⟨q, false, none⟩)
          | some pcbVer =>
            let fwFilename :=
              "battery_pcb" ++ toString pcbVer ++ "_fw_v"
                ++ toString latestInt ++ ".bin"
            let fwPath := "/tmp/" ++ fwFilename
            if w.downloadOk = false then
              (.ok .GENERIC_ERROR, ⟨q, true, none⟩)
            else flashStep w devAddr fwPath dryrun q true

/-- `UpgradeHelper.battery_check_firmware_up_to_date` (helper.py,
lines 283-309).  The `int(re.sub("[^0-9]+", "", current_str))` at line
296 is unguarded, so a digit-free current version raises.  The
resolver's device query (method 2.b) runs with `self._battery_info`
already populated by the preceding `_battery_obtain_info`. -/
def batteryCheckFirmware (w : World) : Except PyError Nat :=
  let t := batteryObtainInfo w.cachedInfo w.readyDevs w.bootDevs w.sess
  if t.code ≠ .SUCCESS then .ok t.code.toNat
  else
    match t.info with
    | none => .error .typeError
    | some i =>
      match pyIntNat (digitsOf i.version) with
      | none => .error .valueError
      | some currentInt =>
        match getLatestFirmwareVersion w.env w.remote
            (batteryFindPcbVersion (some i) w.readyDevs w.bootDevs w.sess) with
        | (.error e, _) => .error e
        | (.ok (.inl c), _) => .ok c.toNat
        | (.ok (.inr (latestInt, _)), _) =>
          if latestInt > currentInt then .ok ExitCode.FIRMWARE_NEEDS_UPDATE.toNat
          else .ok ExitCode.FIRMWARE_UP_TO_DATE.toNat

/-- The parsed command-line flags of `main.py`. -/
structure Parsed where
  battery : Bool
  hut : Bool
  find_pcbid : Bool
  check : Bool
  dry_run : Bool
  use_local_firmware : Bool

/-- `UpgradeHelper.start` (helper.py, lines 54-79), returning the
process exit value.  The battery upgrade branch (line 71) calls
`self.upgrade_battery(parsed.find_pcbid, parsed.check, parsed.dry_run,
parsed.use_local_firmware)` — four positional arguments — while the
method signature (line 311) accepts only `(self, dryrun,
use_local_firmware)`, so Python raises a `TypeError` before the method
body runs. -/
def start (parsed : Parsed) (w : World) : Except PyError Nat :=
  if parsed.battery = false ∧ parsed.hut = false then
    .ok ExitCode.NOTHING_TO_DO.toNat
  else if parsed.battery then
    if parsed.find_pcbid then
      batteryFindPcbVersion w.cachedInfo w.readyDevs w.bootDevs w.sess
    else if parsed.check then batteryCheckFirmware w
    else .error .typeError
  else
    -- `upgrade_hut` (lines 391-393) always returns NOTHING_TO_DO
    .ok ExitCode.NOTHING_TO_DO.toNat

/-! ## Helper lemmas -/

theorem digitsOf_all_digits (s : String) :
    (digitsOf s).data.all Char.isDigit = true := by
  simp only [digitsOf, List.all_eq_true]
  exact fun c hc => (List.mem_filter.mp hc).2

theorem str_eq_empty_of_data (t : String) (h : t.data = []) : t = "" := by
  cases t with
  | mk data => simp at h; subst h; rfl

/-! ## Claim theorems -/

/-- Claim C4: mode detection.  With no devices at all the detector
returns `HARDWARE_NOT_FOUND` for either required mode; with the
required mode's set empty and the other non-empty it returns
`HARDWARE_WRONG_MODE` with a guidance message that differs between the
two directions; with the required mode's set non-empty it returns the
first enumerated device handle. -/
theorem claim_C4 : ∀ (readyDevs bootDevs : List String) (m : BatteryMode),
    (readyDevs = [] → bootDevs = [] →
      batteryDeviceModeDetect readyDevs bootDevs m
        = (.inl .HARDWARE_NOT_FOUND, none))
    ∧ (∀ d rest, readyDevs = [] → bootDevs = d :: rest →
      batteryDeviceModeDetect readyDevs bootDevs .READY
        = (.inl .HARDWARE_WRONG_MODE, some .pressOnceForNormal))
    ∧ (∀ d rest, bootDevs = [] → readyDevs = d :: rest →
      batteryDeviceModeDetect readyDevs bootDevs .BOOT
        = (.inl .HARDWARE_WRONG_MODE, some .pressTwiceForBoot))
    ∧ (WrongModeMsg.pressOnceForNormal ≠ WrongModeMsg.pressTwiceForBoot)
    ∧ (∀ d rest, readyDevs = d :: rest →
      (batteryDeviceModeDetect readyDevs bootDevs .READY).1 = .inr d)
    ∧ (∀ d rest, bootDevs = d :: rest →
      (batteryDeviceModeDetect readyDevs bootDevs .BOOT).1 = .inr d) := by
  intro readyDevs bootDevs m
  refine ⟨?_, ?_, ?_, by decide, ?_, ?_⟩
  · intro hr hb
    subst hr; subst hb
    cases m <;> rfl
  · intro d rest hr hb
    subst hr; subst hb
    simp [batteryDeviceModeDetect]
  · intro d rest hb hr
    subst hr; subst hb
    simp [batteryDeviceModeDetect]
  · intro d rest hr
    subst hr
    simp [batteryDeviceModeDetect]
  · intro d rest hb
    subst hb
    simp [batteryDeviceModeDetect]

/-- Witness for claim C4 at concrete device lists. -/
theorem claim_C4_witness :
    batteryDeviceModeDetect [] [] BatteryMode.READY
      = (.inl .HARDWARE_NOT_FOUND, none)
    ∧ batteryDeviceModeDetect [] ["/dev/ttyACM0"] BatteryMode.READY
      = (.inl .HARDWARE_WRONG_MODE, some .pressOnceForNormal)
    ∧ batteryDeviceModeDetect ["/dev/ttyACM1"] [] BatteryMode.BOOT
      = (.inl .HARDWARE_WRONG_MODE, some .pressTwiceForBoot)
    ∧ (batteryDeviceModeDetect ["/dev/ttyACM1"] ["/dev/ttyACM0"]
        BatteryMode.READY).1 = .inr "/dev/ttyACM1"
    ∧ (batteryDeviceModeDetect ["/dev/ttyACM1"] ["/dev/ttyACM0"]
        BatteryMode.BOOT).1 = .inr "/dev/ttyACM0" :=
  ⟨(claim_C4 [] [] .READY).1 rfl rfl,
   (claim_C4 [] ["/dev/ttyACM0"] .READY).2.1 "/dev/ttyACM0" [] rfl rfl,
   (claim_C4 ["/dev/ttyACM1"] [] .BOOT).2.2.1 "/dev/ttyACM1" [] rfl rfl,
   (claim_C4 ["/dev/ttyACM1"] ["/dev/ttyACM0"] .READY).2.2.2.2.1
     "/dev/ttyACM1" [] rfl,
   (claim_C4 ["/dev/ttyACM1"] ["/dev/ttyACM0"] .BOOT).2.2.2.2.2
     "/dev/ttyACM0" [] rfl⟩

/-- Counterexample to claim C2: with a board revision hint of 16 and a
remote catalog answering the non-numeric body "abc", the resolver
propagates an uncaught `ValueError` from `int(latest)` (which sits
outside the `try` block of
`_get_latest_battery_firmware_available_for_pcb`) instead of returning
`GENERIC_ERROR`. -/
theorem claim_C2_counterexample :
    getLatestFirmwareVersion ⟨none, some "16"⟩ (fun _ => RemoteResult.body "abc")
        (.ok 16)
      = (.error .valueError, true)
    ∧ (Except.error PyError.valueError
        : Except PyError (Sum ExitCode (Nat × String)))
      ≠ .ok (.inl .GENERIC_ERROR) :=
  ⟨rfl, fun h => Except.noConfusion h⟩

/-- Claim C2 (amended): for every board revision, a transport failure
of the remote catalog query yields `GENERIC_ERROR`; a parse failure of
the returned plain-text version marker (non-numeric or empty body)
instead propagates an unhandled `ValueError`. -/
theorem claim_C2_amended : ∀ (remote : Nat → RemoteResult) (pcb : Nat) (s : String),
    (remote pcb = .transportError →
      fetchLatestFw remote pcb = .ok (.inl .GENERIC_ERROR))
    ∧ (remote pcb = .body s → pyIntNat s = none →
      fetchLatestFw remote pcb = .error .valueError) := by
  intro remote pcb s
  constructor
  · intro h
    simp [fetchLatestFw, getLatestBatteryFirmwareForPcb, h]
  · intro h hp
    simp [fetchLatestFw, getLatestBatteryFirmwareForPcb, h, hp]

/-- Witness for claim C2 (amended) at a concrete transport failure and
a concrete non-numeric body. -/
theorem claim_C2_witness :
    fetchLatestFw (fun _ => RemoteResult.transportError) 16
      = .ok (.inl .GENERIC_ERROR)
    ∧ fetchLatestFw (fun _ => RemoteResult.body "abc") 16
      = .error .valueError :=
  ⟨(claim_C2_amended (fun _ => RemoteResult.transportError) 16 "abc").1 rfl,
   (claim_C2_amended (fun _ => RemoteResult.body "abc") 16 "abc").2 rfl (by decide)⟩

/-- Counterexample to claim C3: on the normal info-capture path the
session shutdown primitive is invoked twice (once by the watchdog
thread at line 160, once by the main flow at line 185), not exactly
once. -/
theorem claim_C3_counterexample :
    (batteryObtainInfo none ["/dev/ttyACM0"] []
        (.gotInfo ⟨"16", "1.2.0"⟩)).shutdownCalls = 2
    ∧ ¬((batteryObtainInfo none ["/dev/ttyACM0"] []
        (.gotInfo ⟨"16", "1.2.0"⟩)).shutdownCalls = 1) :=
  ⟨rfl, by decide⟩

/-- Claim C3 (amended): on every path that terminates an InfoReader
session — normal info capture, watchdog timeout, external shutdown
request, busy error, or other transport error — the session shutdown
primitive is invoked, in fact exactly twice (once by the watchdog
thread and once by the main flow), not exactly once; the code relies
on the external driver's `shutdown` being idempotent. -/
theorem claim_C3_amended : ∀ (d : String) (rest bootDevs : List String)
    (sess : SessionEnd),
    (batteryObtainInfo none (d :: rest) bootDevs sess).shutdownCalls = 2
    ∧ 1 ≤ (batteryObtainInfo none (d :: rest) bootDevs sess).shutdownCalls := by
  intro d rest bootDevs sess
  have h2 : (batteryObtainInfo none (d :: rest) bootDevs sess).shutdownCalls = 2 := by
    have hlen : ¬(bootDevs.length + (d :: rest).length ≤ 0) := by simp
    cases sess with
    | gotInfo i => simp [batteryObtainInfo, batteryDeviceModeDetect, hlen]
    | timedOut => simp [batteryObtainInfo, batteryDeviceModeDetect, hlen]
    | externalShutdown => simp [batteryObtainInfo, batteryDeviceModeDetect, hlen]
    | raises msg =>
      by_cases hm : strContains msg "multiple access" = true
      · simp [batteryObtainInfo, batteryDeviceModeDetect, hlen, hm]
      · simp [batteryObtainInfo, batteryDeviceModeDetect, hlen, hm]
  exact ⟨h2, by omega⟩

/-- Claim C5: with a forced override version string supplied, the
resolver returns the integer formed from the string's decimal digits
together with the original string, and if the string contains no
digits it returns `GENERIC_ERROR`; in both cases the remote catalog is
never queried. -/
theorem claim_C5 : ∀ (env : Env) (remote : Nat → RemoteResult)
    (devicePcb : Except PyError Nat) (s : String),
    env.forceFwVersion = some s →
    (digitsOf s ≠ "" →
      getLatestFirmwareVersion env remote devicePcb
        = (.ok (.inr (digitsToNat (digitsOf s).data, s)), false))
    ∧ (digitsOf s = "" →
      getLatestFirmwareVersion env remote devicePcb
        = (.ok (.inl .GENERIC_ERROR), false)) := by
  intro env remote devicePcb s h
  constructor
  · intro hne
    have hdata : (digitsOf s).data ≠ [] :=
      fun hd => hne (str_eq_empty_of_data _ hd)
    have hp : pyIntNat (digitsOf s) = some (digitsToNat (digitsOf s).data) := by
      simp [pyIntNat, hdata, digitsOf_all_digits]
    simp [getLatestFirmwareVersion, h, hp]
  · intro he
    have hp : pyIntNat (digitsOf s) = none := by
      rw [he]
      rfl
    simp [getLatestFirmwareVersion, h, hp]

/-- Witness for claim C5 at the override strings "v2.3.1" and "abc". -/
theorem claim_C5_witness :
    getLatestFirmwareVersion ⟨some "v2.3.1", none⟩
        (fun _ => RemoteResult.transportError) (.ok 0)
      = (.ok (.inr (231, "v2.3.1")), false)
    ∧ getLatestFirmwareVersion ⟨some "abc", none⟩
        (fun _ => RemoteResult.transportError) (.ok 0)
      = (.ok (.inl .GENERIC_ERROR), false) := by
  constructor
  · exact (claim_C5 ⟨some "v2.3.1", none⟩ (fun _ => RemoteResult.transportError)
      (.ok 0) "v2.3.1" rfl).1 (by decide)
  · exact (claim_C5 ⟨some "abc", none⟩ (fun _ => RemoteResult.transportError)
      (.ok 0) "abc" rfl).2 (by decide)

/-- Claim C6: an InfoReader session in which no board info ever
arrives and no external shutdown is requested returns `GENERIC_ERROR`,
and the watchdog loop exits after exactly timeout + poll seconds of
sleeping (21 poll steps of 0.5 s = 10.5 s ≤ 10 s + 0.5 s), so the
caller regains control within timeout + poll. -/
theorem claim_C6 : ∀ (d : String) (rest bootDevs : List String),
    (batteryObtainInfo none (d :: rest) bootDevs .timedOut).code
      = .GENERIC_ERROR
    ∧ watchdogRun watchdogTimeoutSteps 0 = watchdogTimeoutSteps + 1
    ∧ (watchdogRun watchdogTimeoutSteps 0 : ℚ) * watchdogStepSeconds
      = watchdogTimeoutSeconds + watchdogStepSeconds
    ∧ (watchdogRun watchdogTimeoutSteps 0 : ℚ) * watchdogStepSeconds
      ≤ watchdogTimeoutSeconds + watchdogStepSeconds := by
  intro d rest bootDevs
  have hlen : ¬(bootDevs.length + (d :: rest).length ≤ 0) := by simp
  have hrun : watchdogRun watchdogTimeoutSteps 0 = watchdogTimeoutSteps + 1 :=
    watchdogRun_eq watchdogTimeoutSteps 0 (by omega)
  have heq : (watchdogRun watchdogTimeoutSteps 0 : ℚ) * watchdogStepSeconds
      = watchdogTimeoutSeconds + watchdogStepSeconds := by
    rw [hrun]
    norm_num [watchdogTimeoutSteps, watchdogTimeoutSeconds, watchdogStepSeconds]
  refine ⟨?_, hrun, heq, le_of_eq heq⟩
  simp [batteryObtainInfo, batteryDeviceModeDetect, hlen]

/-- Claim C7: a session whose transport raises an error returns
`HARDWARE_BUSY` exactly when the error message reports a multiple
access violation, `GENERIC_ERROR` exactly otherwise, and never both. -/
theorem claim_C7 : ∀ (d : String) (rest bootDevs : List String) (msg : String),
    ((batteryObtainInfo none (d :: rest) bootDevs (.raises msg)).code
        = .HARDWARE_BUSY
      ↔ strContains msg "multiple access" = true)
    ∧ ((batteryObtainInfo none (d :: rest) bootDevs (.raises msg)).code
        = .GENERIC_ERROR
      ↔ strContains msg "multiple access" = false)
    ∧ ¬((batteryObtainInfo none (d :: rest) bootDevs (.raises msg)).code
        = .HARDWARE_BUSY
      ∧ (batteryObtainInfo none (d :: rest) bootDevs (.raises msg)).code
        = .GENERIC_ERROR) := by
  intro d rest bootDevs msg
  have hlen : ¬(bootDevs.length + (d :: rest).length ≤ 0) := by simp
  by_cases hm : strContains msg "multiple access" = true
  · simp [batteryObtainInfo, batteryDeviceModeDetect, hlen, hm]
  · simp [batteryObtainInfo, batteryDeviceModeDetect, hlen, hm,
      Bool.of_not_eq_true hm]

/-- Claim C8: a numeric plain-text catalog response is parsed with its
leading three characters (zero-padded on the right to length three) as
major/minor/patch of the display form and its digit value as the
numeric form; in particular "123" parses to (123, "v1.2.3") and "5" to
(5, "v5.0.0"). -/
theorem claim_C8 : ∀ (remote : Nat → RemoteResult) (pcb : Nat) (s : String),
    remote pcb = .body s → s.data ≠ [] → s.data.all Char.isDigit = true →
    getLatestBatteryFirmwareForPcb remote pcb
      = .ok (some (digitsToNat s.data,
          "v" ++ String.singleton ((s.data ++ ['0', '0', '0']).getD 0 '0') ++ "."
            ++ String.singleton ((s.data ++ ['0', '0', '0']).getD 1 '0') ++ "."
            ++ String.singleton ((s.data ++ ['0', '0', '0']).getD 2 '0')))
    ∧ getLatestBatteryFirmwareForPcb (fun _ => RemoteResult.body "123") 16
      = .ok (some (123, "v1.2.3"))
    ∧ getLatestBatteryFirmwareForPcb (fun _ => RemoteResult.body "5") 16
      = .ok (some (5, "v5.0.0")) := by
  intro remote pcb s h hne hdig
  have hp : pyIntNat s = some (digitsToNat s.data) := by
    simp [pyIntNat, hne, hdig]
  refine ⟨?_, rfl, rfl⟩
  simp [getLatestBatteryFirmwareForPcb, h, hp]

/-- Witness for claim C8 at the concrete response bodies "123" and "5". -/
theorem claim_C8_witness :
    getLatestBatteryFirmwareForPcb (fun _ => RemoteResult.body "123") 16
      = .ok (some (123, "v1.2.3"))
    ∧ getLatestBatteryFirmwareForPcb (fun _ => RemoteResult.body "5") 16
      = .ok (some (5, "v5.0.0")) := by
  have h := claim_C8 (fun _ => RemoteResult.body "123") 16 "123" rfl
    (by decide) (by decide)
  exact ⟨h.2.1, h.2.2⟩

/-- Claim C9: the find-pcbid operation returns the distinct value 0
(`PCB_VERSION_ID_EXIT_CODE_NONE`) whenever obtaining board info fails,
for any reason; and when board info is obtained (with a numeric PCB
revision string from the driver), it returns that revision as an
integer, never any other exit code. -/
theorem claim_C9 : ∀ (cached : Option BatteryInfo)
    (readyDevs bootDevs : List String) (sess : SessionEnd),
    ((batteryObtainInfo cached readyDevs bootDevs sess).code ≠ .SUCCESS →
      batteryFindPcbVersion cached readyDevs bootDevs sess
        = .ok PCB_VERSION_ID_EXIT_CODE_NONE)
    ∧ (∀ i n, (batteryObtainInfo cached readyDevs bootDevs sess).code = .SUCCESS →
      (batteryObtainInfo cached readyDevs bootDevs sess).info = some i →
      pyIntNat i.pcbVersion = some n →
      batteryFindPcbVersion cached readyDevs bootDevs sess = .ok n) := by
  intro cached readyDevs bootDevs sess
  constructor
  · intro h
    simp [batteryFindPcbVersion, h]
  · intro i n hc hi hn
    simp [batteryFindPcbVersion, hc, hi, hn]

/-- Witness for claim C9: a session with no battery attached returns
0, and a successful info read of PCB revision "16" returns 16. -/
theorem claim_C9_witness :
    batteryFindPcbVersion none [] [] SessionEnd.timedOut
      = .ok PCB_VERSION_ID_EXIT_CODE_NONE
    ∧ batteryFindPcbVersion none ["/dev/ttyACM0"] []
        (.gotInfo ⟨"16", "1.2.0"⟩) = .ok 16 :=
  ⟨(claim_C9 none [] [] .timedOut).1 (by decide),
   (claim_C9 none ["/dev/ttyACM0"] [] (.gotInfo ⟨"16", "1.2.0"⟩)).2
     ⟨"16", "1.2.0"⟩ 16 (by decide) (by decide) (by decide)⟩

/-- Claim C10: in the upgrade workflow with the use-local-firmware
flag off, a boot-mode device present and the port exclusively
available, an unset `PCB_VERSION` environment variable makes the run
return `GENERIC_ERROR` with no remote catalog query, no download
attempt and no flashing-tool invocation, regardless of any forced
firmware-version override. -/
theorem claim_C10 : ∀ (w : World) (dryrun : Bool) (d : String)
    (rest : List String),
    w.bootDevs = d :: rest → w.portAvailable = true →
    w.env.pcbVersion = none →
    upgradeBattery w dryrun false = (.ok .GENERIC_ERROR, ⟨false, false, none⟩) := by
  intro w dryrun d rest hboot hport henv
  have hlen : ¬(w.bootDevs.length + w.readyDevs.length ≤ 0) := by
    rw [hboot]
    simp
  simp [upgradeBattery, batteryDeviceModeDetect, hlen, hboot, hport, henv]

/-- Witness for claim C10: boot device attached, port free,
`PCB_VERSION` unset, forced override "2" supplied. -/
theorem claim_C10_witness :
    upgradeBattery ⟨[], ["/dev/ttyACM0"], none, .timedOut, ⟨some "2", none⟩,
        fun _ => RemoteResult.transportError, true, some "/repo", true, true, true⟩
      true false = (.ok .GENERIC_ERROR, ⟨false, false, none⟩) :=
  claim_C10 _ true "/dev/ttyACM0" [] rfl rfl rfl

/-- The external world of the claim C1 scenario: a boot-mode device at
`/dev/ttyACM0`, the port exclusively available, `DT_REPO_PATH` set
with the local firmware asset present, and a flashing tool that
succeeds. -/
def worldC1 : World :=
  ⟨[], ["/dev/ttyACM0"], none, .timedOut, ⟨none, none⟩,
    fun _ => RemoteResult.transportError, true, some "/repo", true, true, true⟩

/-- Claim C1, evaluated at its scenario: with the battery target
selected, check and find-pcbid off, dry-run and use-local-firmware on,
`start` raises a `TypeError` — line 71 of helper.py passes four
positional arguments to `upgrade_battery`, whose signature accepts
only `(self, dryrun, use_local_firmware)` — instead of returning exit
code 1; the `upgrade_battery` method itself, invoked with
`dryrun=True, use_local_firmware=True`, does invoke the flashing tool
with the info-probe option only and return `SUCCESS`. -/
theorem claim_C1_eval :
    start ⟨true, false, false, false, true, true⟩ worldC1 = .error .typeError
    ∧ upgradeBattery worldC1 true true
      = (.ok .SUCCESS, ⟨false, false,
          some ["bossac", "--port=ttyACM0", "--force_usb_port=true", "--info"]⟩)
    ∧ "--info" ∈ flashCommand "/dev/ttyACM0"
        ("/repo/" ++ LOCAL_FIRMWARE_BIN_PATH) true
    ∧ "--erase" ∉ flashCommand "/dev/ttyACM0"
        ("/repo/" ++ LOCAL_FIRMWARE_BIN_PATH) true
    ∧ "--write" ∉ flashCommand "/dev/ttyACM0"
        ("/repo/" ++ LOCAL_FIRMWARE_BIN_PATH) true
    ∧ "--verify" ∉ flashCommand "/dev/ttyACM0"
        ("/repo/" ++ LOCAL_FIRMWARE_BIN_PATH) true
    ∧ "--reset" ∉ flashCommand "/dev/ttyACM0"
        ("/repo/" ++ LOCAL_FIRMWARE_BIN_PATH) true := by
  refine ⟨rfl, rfl, ?_, ?_, ?_, ?_, ?_⟩ <;> decide

end UpgradeHelper
